import Mathlib

/-!
Verification development for the feature-flag evaluation gateway
(`backend/app.py`).  The Python source is shallowly embedded: Python dicts
become association lists, `None`/truthiness/`str()` coercions are modelled
explicitly on a small value type `PyVal`, fallible code returns `Except`,
and the mutable module-level state threads through explicit state records.

Naming of providers follows the source code: the specification's abstract
provider names correspond to the code's names as
local-daemon = flagd, targeting-file = launchdarkly,
targeting-online = launchdarkly-online, simple-file = growthbook,
segment-file = flagsmith, segment-online = flagsmith-online.
-/

namespace FFPoC

/-- A Python runtime value as it occurs in the flag documents and attribute
maps: `None`, booleans, strings and integers.  (Composite values and floats
do not occur in any of the claims' inputs; documents are modelled at the
shape the evaluators consume.) -/
inductive PyVal where
  | none : PyVal
  | bool : Bool → PyVal
  | str : String → PyVal
  | int : Int → PyVal
deriving DecidableEq, Repr

/-- Python `str(v)`: `str(None) = "None"`, `str(True) = "True"`,
`str(False) = "False"`, strings unchanged, integers printed in decimal. -/
def pyStr : PyVal → String
  | PyVal.none => "None"
  | PyVal.bool true => "True"
  | PyVal.bool false => "False"
  | PyVal.str s => s
  | PyVal.int n => toString n

/-- Python `bool(v)` truthiness: `None` and `False` and `""` and `0` are
falsy, everything else truthy. -/
def pyTruthy : PyVal → Bool
  | PyVal.none => false
  | PyVal.bool b => b
  | PyVal.str s => decide (s ≠ "")
  | PyVal.int n => decide (n ≠ 0)

/-- An attribute map (a Python dict from attribute name to value),
modelled as an association list in insertion order. -/
abbrev Attrs := List (String × PyVal)

/-- Python `d.get(k)` on an association list: the value of the first entry
whose key equals `k`, `none` when absent.  (The dicts built by the source
never hold duplicate keys, so first-match lookup is dict lookup.) -/
def assoc {κ α : Type} [DecidableEq κ] (m : List (κ × α)) (k : κ) : Option α :=
  (m.find? (fun p => decide (p.1 = k))).map (fun p => p.2)

/-- Python `str(x)` applied to the result of a `.get` that may be `None`:
a missing key stringifies to the placeholder `"None"`. -/
def pyStrOpt : Option PyVal → String
  | Option.none => "None"
  | Option.some v => pyStr v

/-- Python `user_id or "anonymous"`: the empty string is falsy and is
replaced by the literal `"anonymous"`. -/
def orAnon (uid : String) : String :=
  if uid = "" then "anonymous" else uid

/-- Python `s.lower()` (ASCII case folding, character by character). -/
def pyLower (s : String) : String :=
  String.mk (s.data.map Char.toLower)

/-- Python `s.strip()`: drop whitespace from both ends. -/
def pyStrip (s : String) : String :=
  String.mk (((s.data.dropWhile Char.isWhitespace).reverse.dropWhile
    Char.isWhitespace).reverse)

/-! ## Resolution Router: `_effective_provider` (app.py lines 404-415) -/

/-- The closed set of recognized provider names tested on line 406. -/
def knownProviders : List String :=
  ["flagd", "launchdarkly", "launchdarkly-online", "growthbook",
   "flagsmith", "flagsmith-online"]

/-- `_effective_provider(req_provider)` with the module global
`BACKEND_PROVIDER` passed explicitly.  Mirrors
`p = (req_provider or BACKEND_PROVIDER or "flagd").lower().strip()` with
Python's falsy-string `or`, then the membership test, else
`p = BACKEND_PROVIDER` unchanged. -/
def effective_provider (req_provider : Option String) (BACKEND_PROVIDER : String) : String :=
  let raw :=
    match req_provider with
    | Option.some s =>
        if s = "" then (if BACKEND_PROVIDER = "" then "flagd" else BACKEND_PROVIDER) else s
    | Option.none => if BACKEND_PROVIDER = "" then "flagd" else BACKEND_PROVIDER
  let p := pyStrip (pyLower raw)
  if p ∈ knownProviders then p else BACKEND_PROVIDER

/-! ## Document Cache: `_load_json_with_cache` (app.py lines 143-150) -/

/-- An on-disk file as the cache sees it: its modification time (an
abstract monotone timestamp) and its content, already parsed at the type
the adapter consumes (`json.load` is modelled as yielding the parsed
document of the file's bytes). -/
structure FileInfo (α : Type) where
  mtime : Nat
  content : α
deriving DecidableEq, Repr

/-- A snapshot of the filesystem: what each path currently holds, if it
exists. -/
abbrev FileSys (α : Type) := String → Option (FileInfo α)

/-- `_load_json_with_cache(path, last_mtime)`: raises when the path does
not exist; re-parses and returns the new document and mtime when
`last_mtime is None or mtime > last_mtime`; otherwise returns
`(None, last_mtime)`. -/
def load_json_with_cache {α : Type} (fsys : FileSys α) (path : String)
    (last_mtime : Option Nat) : Except String (Option α × Option Nat) :=
  match fsys path with
  | Option.none => Except.error ("JSON file not found: " ++ path)
  | Option.some info =>
      match last_mtime with
      | Option.none => Except.ok (Option.some info.content, Option.some info.mtime)
      | Option.some m =>
          if m < info.mtime then Except.ok (Option.some info.content, Option.some info.mtime)
          else Except.ok (Option.none, Option.some m)

/-! ## Simple-Condition Evaluator (GrowthBook):
`_gb_reload_if_needed` / `_gb_get_value` (app.py lines 271-291) -/

/-- One rule of a feature: `{condition: dict, force: value}`.  An absent
`force` key is `Option.none`; a `condition` that is absent or JSON null
is absorbed into the empty list (the code's `rule.get("condition", {})`
and `(cond or {})`). -/
structure GBRule where
  condition : Attrs
  force : Option PyVal
deriving DecidableEq, Repr

/-- One feature definition: `{defaultValue: value, rules: [...]}`; absent
keys are `Option.none` resp. `[]` (the code's `feat.get("rules", [])`). -/
structure GBFeature where
  defaultValue : Option PyVal
  rules : List GBRule
deriving DecidableEq, Repr

/-- The GrowthBook features document: a JSON object mapping flag key to
feature definition. -/
abbrev GBDoc := List (String × GBFeature)

/-- The module state `_gb_doc` / `_gb_mtime`. -/
structure GBState where
  doc : Option GBDoc
  mtime : Option Nat
deriving DecidableEq, Repr

/-- `_gb_reload_if_needed()`: reload through the cache; replace the cached
document and mtime only when the cache returned a fresh document. -/
def gb_reload_if_needed (fsys : FileSys GBDoc) (path : String) (s : GBState) :
    Except String GBState :=
  match load_json_with_cache fsys path s.mtime with
  | Except.error e => Except.error e
  | Except.ok (Option.some d, m) => Except.ok { doc := Option.some d, mtime := m }
  | Except.ok (Option.none, _) => Except.ok s

/-- The attribute map built on app.py line 285: `attrs = {"userId": user_id}`
with the raw caller-supplied user id (no anonymous defaulting here). -/
def gb_attrs (user_id : String) : Attrs :=
  [("userId", PyVal.str user_id)]

/-- One condition entry match (the body of the `all(...)` on line 288):
`str(attrs.get(k)) == str(v)`; a missing attribute stringifies to the
placeholder `"None"`. -/
def gb_cond_entry_matches (attrs : Attrs) (k : String) (v : PyVal) : Bool :=
  decide (pyStrOpt (assoc attrs k) = pyStr v)

/-- A rule matches when every entry of its condition dict matches. -/
def gb_rule_matches (attrs : Attrs) (r : GBRule) : Bool :=
  r.condition.all (fun kv => gb_cond_entry_matches attrs kv.1 kv.2)

/-- The rule loop of `_gb_get_value` (lines 286-291): first matching rule
returns `rule.get("force", feat.get("defaultValue", default))`; when the
rules are exhausted, `feat.get("defaultValue", default)`. -/
def gb_scan (attrs : Attrs) (fd : Option PyVal) (d : PyVal) :
    List GBRule → PyVal
  | [] => fd.getD d
  | r :: rs =>
      if gb_rule_matches attrs r then r.force.getD (fd.getD d)
      else gb_scan attrs fd d rs

/-- The document-level resolution of `_gb_get_value` given the loaded
document and the attribute map (lines 282-291 with the attribute map
abstracted; the code fixes `attrs = {"userId": user_id}`, see
`gb_attrs`).  A flag key absent from the document returns the caller
default (an empty feature dict, which the code also treats as absent via
`if not feat`, denotes the same result: no rules and no defaultValue
exhaust to the caller default). -/
def gb_resolve (doc : GBDoc) (flag_key : String) (attrs : Attrs) (d : PyVal) :
    PyVal :=
  match assoc doc flag_key with
  | Option.none => d
  | Option.some feat => gb_scan attrs feat.defaultValue d feat.rules

/-- `_gb_get_value(flag_key, default, user_id)`: reload if needed, then
resolve against the cached document (`if not _gb_doc: return default`
covers both the never-loaded and the empty document). -/
def gb_get_value (fsys : FileSys GBDoc) (path : String) (s : GBState)
    (flag_key : String) (d : PyVal) (user_id : String) :
    Except String (PyVal × GBState) :=
  match gb_reload_if_needed fsys path s with
  | Except.error e => Except.error e
  | Except.ok s1 =>
      match s1.doc with
      | Option.none => Except.ok (d, s1)
      | Option.some doc =>
          if doc.isEmpty then Except.ok (d, s1)
          else Except.ok (gb_resolve doc flag_key (gb_attrs user_id) d, s1)

/-- The document of the spec's Simple-Condition example:
`{flag: {defaultValue: false, rules: [{condition:{userId:"pradyun"}, force:true}]}}`. -/
def pradyunDoc : GBDoc :=
  [("flag", { defaultValue := Option.some (PyVal.bool false),
              rules := [{ condition := [("userId", PyVal.str "pradyun")],
                          force := Option.some (PyVal.bool true) }] })]

/-! ## Segment-Based Evaluator (Flagsmith offline):
`_fs_reload_if_needed` / `_fs_match_segment` / `_fs_resolve_state` /
`_fs_bool_from_state` / `_fs_str_from_state` (app.py lines 296-368) -/

/-- One segment condition `{property, operator, value}`; absent keys are
`Option.none` (`cond.get(...)`). -/
structure FSCond where
  property : Option String
  operator : Option String
  value : Option PyVal
deriving DecidableEq, Repr

/-- One segment rule `{type, conditions}`; an absent or null `conditions`
is absorbed into `[]` (`rule.get("conditions") or []`). -/
structure FSRule where
  type : Option String
  conditions : List FSCond
deriving DecidableEq, Repr

/-- A segment `{id, rules}`; `segment.get("rules") or []` absorbs an
absent or null rules list.  The numeric id is taken through `int(...)`. -/
structure FSSegment where
  id : Int
  rules : List FSRule
deriving DecidableEq, Repr

/-- A feature state `{feature_id, segment_id, value, enabled}`;
`segment_id` is nullable, `value`/`enabled` keys may be absent. -/
structure FeatureState where
  feature_id : Int
  segment_id : Option Int
  value : Option PyVal
  enabled : Option PyVal
deriving DecidableEq, Repr

/-- A feature `{id, name}` of the environment document. -/
structure FSFeature where
  id : Int
  name : String
deriving DecidableEq, Repr

/-- The Flagsmith environment document: `features`, `segments`,
`feature_states` (each `doc.get(...) or []`). -/
structure FSDoc where
  features : List FSFeature
  segments : List FSSegment
  feature_states : List FeatureState
deriving DecidableEq, Repr

/-- `attrs.get(prop)` where `prop` itself came from `cond.get("property")`
and may be `None`: a `None` property finds nothing in a string-keyed
attribute dict. -/
def fs_attr_of (attrs : Attrs) (prop : Option String) : Option PyVal :=
  match prop with
  | Option.some p => assoc attrs p
  | Option.none => Option.none

/-- One condition of the inner loop of `_fs_match_segment` (lines
323-331): under operator `"EQUAL"` the condition holds iff
`str(attrs.get(prop)) == str(val)`; any other operator (including an
absent one) makes the loop `return False`, i.e. the condition fails. -/
def fs_cond_ok (attrs : Attrs) (c : FSCond) : Bool :=
  if c.operator = Option.some "EQUAL"
  then decide (pyStrOpt (fs_attr_of attrs c.property) = pyStrOpt c.value)
  else false

/-- The rule loop of `_fs_match_segment` (lines 320-332): a rule whose
`type` is not `"ALL"` is skipped (`continue`); for an `"ALL"` rule the
conditions are checked in order and any failing condition returns
`False`; reaching the end returns `True`. -/
def fs_match_rules (attrs : Attrs) : List FSRule → Bool
  | [] => true
  | r :: rs =>
      if r.type = Option.some "ALL"
      then (if r.conditions.all (fs_cond_ok attrs) then fs_match_rules attrs rs
            else false)
      else fs_match_rules attrs rs

/-- `_fs_match_segment(segment, attrs)`. -/
def fs_match_segment (segment : FSSegment) (attrs : Attrs) : Bool :=
  fs_match_rules attrs segment.rules

/-- Python dict insertion `m[k] = v` on an association list: overwrite in
place when the key exists (keeping its position), else append. -/
def upsert {κ α : Type} [DecidableEq κ] (m : List (κ × α)) (k : κ) (v : α) :
    List (κ × α) :=
  if m.any (fun p => decide (p.1 = k))
  then m.map (fun p => if p.1 = k then (k, v) else p)
  else m ++ [(k, v)]

/-- The `_fs_feature_id_by_name` index rebuilt from the `features` list
(lines 304-306): cleared, then one dict insertion per feature in document
order. -/
def fs_feature_id_by_name (features : List FSFeature) : List (String × Int) :=
  features.foldl (fun m f => upsert m f.name f.id) []

/-- The `_fs_segment_by_id` index (lines 308-310). -/
def fs_segment_by_id (segments : List FSSegment) : List (Int × FSSegment) :=
  segments.foldl (fun m sg => upsert m sg.id sg) []

/-- One insertion of the `_fs_states_by_fid` grouping loop (lines
314-317): fetch the feature id's list (default empty), append the state,
store it back. -/
def stateGroupInsert (m : List (Int × List FeatureState)) (st : FeatureState) :
    List (Int × List FeatureState) :=
  upsert m st.feature_id (((assoc m st.feature_id).getD []) ++ [st])

/-- The `_fs_states_by_fid` index (lines 312-317): per feature id, the
list of its states appended in document order. -/
def fs_states_by_fid (sts : List FeatureState) : List (Int × List FeatureState) :=
  sts.foldl stateGroupInsert []

/-- The module state of the Flagsmith offline adapter: `_fs_doc`,
`_fs_mtime` and the three derived index dicts. -/
structure FSState where
  doc : Option FSDoc
  mtime : Option Nat
  feature_id_by_name : List (String × Int)
  segment_by_id : List (Int × FSSegment)
  states_by_fid : List (Int × List FeatureState)
deriving DecidableEq, Repr

/-- `_fs_reload_if_needed()` (lines 296-317), observed at its boundary:
on a fresh document every index holds exactly the rebuild from the new
document (the in-place clear-and-repopulate of the live dicts is traced
step by step in `fs_reload_steps` below). -/
def fs_reload_if_needed (fsys : FileSys FSDoc) (path : String) (s : FSState) :
    Except String FSState :=
  match load_json_with_cache fsys path s.mtime with
  | Except.error e => Except.error e
  | Except.ok (Option.none, _) => Except.ok s
  | Except.ok (Option.some d, m) =>
      Except.ok { doc := Option.some d, mtime := m,
                  feature_id_by_name := fs_feature_id_by_name d.features,
                  segment_by_id := fs_segment_by_id d.segments,
                  states_by_fid := fs_states_by_fid d.feature_states }

/-- The matched-segment-id pass of `_fs_resolve_state` (lines 344-347):
iterate the `id → segment` dict in insertion order and collect the ids of
the segments matching the attributes. -/
def fs_matched_seg_ids (segs : List (Int × FSSegment)) (attrs : Attrs) :
    List Int :=
  (segs.filter (fun p => fs_match_segment p.2 attrs)).map (fun p => p.1)

/-- The selection logic of `_fs_resolve_state` (lines 338-354) over given
index structures: look the flag key up in the name index (`if not fid`
treats both a missing name and the falsy feature id 0 as unknown); fetch
the states (`... .get(fid) or []`, empty means no state); first state in
order whose non-null `segment_id` is among the matched segment ids, else
first state with null `segment_id`, else none. -/
def fs_resolve_from_idx (names : List (String × Int))
    (segs : List (Int × FSSegment)) (stm : List (Int × List FeatureState))
    (flag_key : String) (attrs : Attrs) : Option FeatureState :=
  match assoc names flag_key with
  | Option.none => Option.none
  | Option.some fid =>
      if fid = 0 then Option.none
      else
        let states := (assoc stm fid).getD []
        if states.isEmpty then Option.none
        else
          let matched := fs_matched_seg_ids segs attrs
          match states.find? (fun st =>
              match st.segment_id with
              | Option.some sid => matched.contains sid
              | Option.none => false) with
          | Option.some st => Option.some st
          | Option.none => states.find? (fun st => st.segment_id = Option.none)

/-- `_fs_resolve_state(flag_key, attrs)` (lines 334-354): reload if
needed, then resolve against the current indexes (`if not _fs_doc` yields
absent before any document was loaded). -/
def fs_resolve_state (fsys : FileSys FSDoc) (path : String) (s : FSState)
    (flag_key : String) (attrs : Attrs) :
    Except String (Option FeatureState × FSState) :=
  match fs_reload_if_needed fsys path s with
  | Except.error e => Except.error e
  | Except.ok s1 =>
      match s1.doc with
      | Option.none => Except.ok (Option.none, s1)
      | Option.some _ =>
          Except.ok (fs_resolve_from_idx s1.feature_id_by_name s1.segment_by_id
            s1.states_by_fid flag_key attrs, s1)

/-- `_fs_bool_from_state(state, default)` (lines 356-361): no state or a
state whose `value` is absent/null falls back to
`bool(state.get("enabled", default))`; otherwise `bool(value)`. -/
def fs_bool_from_state (st : Option FeatureState) (d : PyVal) : Bool :=
  match st with
  | Option.none => pyTruthy d
  | Option.some s =>
      match s.value with
      | Option.none => pyTruthy (s.enabled.getD d)
      | Option.some PyVal.none => pyTruthy (s.enabled.getD d)
      | Option.some v => pyTruthy v

/-- `_fs_str_from_state(state, default)` (lines 363-368). -/
def fs_str_from_state (st : Option FeatureState) (d : PyVal) : String :=
  match st with
  | Option.none => pyStr d
  | Option.some s =>
      match s.value with
      | Option.none => pyStr d
      | Option.some PyVal.none => pyStr d
      | Option.some v => pyStr v

/-- State selection in document order, following the spec's words for the
Segment-Based Evaluator (spec 4.3, precedence (a)/(b)/(c)): the first
state among the document's `feature_states` belonging to the feature
whose `segment_id` is among the matching segments (segments iterated in
document order), else the first with null `segment_id`, else absent.
This is the comparison definition for the refinement claim C5. -/
def fs_resolve_docorder (doc : FSDoc) (fid : Int) (attrs : Attrs) :
    Option FeatureState :=
  let states := doc.feature_states.filter (fun st => decide (st.feature_id = fid))
  let matched := (doc.segments.filter (fun sg => fs_match_segment sg attrs)).map
    (fun sg => sg.id)
  match states.find? (fun st =>
      match st.segment_id with
      | Option.some sid => matched.contains sid
      | Option.none => false) with
  | Option.some st => Option.some st
  | Option.none => states.find? (fun st => st.segment_id = Option.none)

/-- A document whose single feature has the falsy numeric id 0 and one
default (null-segment) state. -/
def zeroIdDoc : FSDoc :=
  { features := [{ id := 0, name := "f" }],
    segments := [],
    feature_states := [{ feature_id := 0, segment_id := Option.none,
                         value := Option.some (PyVal.str "blue"),
                         enabled := Option.none }] }

/-- The spec's Segment-Based example: one feature, one segment requiring
`userId == "vip"`, one segment-scoped state `"red"` and one default state
`"blue"`. -/
def vipDoc : FSDoc :=
  { features := [{ id := 10, name := "flag" }],
    segments := [{ id := 1,
                   rules := [{ type := Option.some "ALL",
                               conditions := [{ property := Option.some "userId",
                                                operator := Option.some "EQUAL",
                                                value := Option.some (PyVal.str "vip") }] }] }],
    feature_states := [{ feature_id := 10, segment_id := Option.some 1,
                         value := Option.some (PyVal.str "red"),
                         enabled := Option.none },
                       { feature_id := 10, segment_id := Option.none,
                         value := Option.some (PyVal.str "blue"),
                         enabled := Option.none }] }

/-- A segment with one `"ALL"` rule holding a single `GREATER_THAN`
condition. -/
def gtSeg : FSSegment :=
  { id := 7,
    rules := [{ type := Option.some "ALL",
                conditions := [{ property := Option.some "userId",
                                 operator := Option.some "GREATER_THAN",
                                 value := Option.some (PyVal.str "10") }] }] }

/-! ## Context builders (app.py lines 125-141) and provider clients -/

/-- An OpenFeature `EvaluationContext`: targeting key plus attribute
dict. -/
structure OFContext where
  targeting_key : String
  attributes : Attrs
deriving DecidableEq, Repr

/-- `build_of_context(user_id)` (lines 125-130): default a falsy user id
to `"anonymous"` and attach it both as targeting key and as the `userId`
attribute. -/
def build_of_context (user_id : String) : OFContext :=
  { targeting_key := orAnon user_id,
    attributes := [("userId", PyVal.str (orAnon user_id))] }

/-- Which `Context` construction API the installed LaunchDarkly SDK
exposes (`hasattr(Context, "builder")` / `hasattr(Context, "create")`):
the builder style, the single-call factory, or neither. -/
inductive LDApi where
  | builder : LDApi
  | create : LDApi
  | neither : LDApi
deriving DecidableEq, Repr

/-- A LaunchDarkly evaluation context: the context key plus the attribute
dict set on it. -/
structure LDContext where
  key : String
  attributes : Attrs
deriving DecidableEq, Repr

/-- `build_ld_context(user_id)` (lines 132-141): default a falsy user id
to `"anonymous"`; with the builder API also set the `userId` attribute;
with the factory API (`Context.create(uid)`) only the key is set and no
`userId` attribute is attached; with neither API raise. -/
def build_ld_context (api : LDApi) (user_id : String) :
    Except String LDContext :=
  match api with
  | LDApi.builder =>
      Except.ok { key := orAnon user_id,
                  attributes := [("userId", PyVal.str (orAnon user_id))] }
  | LDApi.create =>
      Except.ok { key := orAnon user_id, attributes := [] }
  | LDApi.neither =>
      Except.error "LaunchDarkly SDK Context API not found"

/-- The flagd OpenFeature client: `get_boolean_value` /
`get_string_value` against an external daemon, either returning a value
or raising. -/
structure OFClient where
  getBool : String → PyVal → OFContext → Except String PyVal
  getStr : String → PyVal → OFContext → Except String PyVal

/-- A LaunchDarkly client: `variation(flag_key, ctx, default)`. -/
structure LDClient where
  variation : String → LDContext → PyVal → Except String PyVal

/-- The Flagsmith online client: the combined
`get_identity_flags(identifier, traits)` plus `is_feature_enabled` /
`get_feature_value` call of the adapter's `try` block — arguments are the
identifier, the traits dict and the flag key; the result is the value
`v` (possibly `None`) or a raised transport error. -/
structure FSMClient where
  callBool : String → Attrs → String → Except String PyVal
  callStr : String → Attrs → String → Except String PyVal

/-- The traits dict sent by the Flagsmith online adapter (lines 377-380,
391-394): `{"userId": user_id or "anonymous"}`. -/
def fsm_traits (user_id : String) : Attrs :=
  [("userId", PyVal.str (orAnon user_id))]

/-- `_fsm_online_bool(flag_key, default, user_id)` (lines 373-385): an
uninitialized client raises; any exception from the backend call is
swallowed and the default is returned coerced to bool; a `None` flag
value also falls back to the default; otherwise `bool(v)`. -/
def fsm_online_bool (client : Option FSMClient) (flag_key : String)
    (d : PyVal) (user_id : String) : Except String Bool :=
  match client with
  | Option.none => Except.error "Flagsmith online client not initialized"
  | Option.some c =>
      match c.callBool (orAnon user_id) (fsm_traits user_id) flag_key with
      | Except.error _ => Except.ok (pyTruthy d)
      | Except.ok v =>
          match v with
          | PyVal.none => Except.ok (pyTruthy d)
          | v2 => Except.ok (pyTruthy v2)

/-- `_fsm_online_str(flag_key, default, user_id)` (lines 387-399). -/
def fsm_online_str (client : Option FSMClient) (flag_key : String)
    (d : PyVal) (user_id : String) : Except String String :=
  match client with
  | Option.none => Except.error "Flagsmith online client not initialized"
  | Option.some c =>
      match c.callStr (orAnon user_id) (fsm_traits user_id) flag_key with
      | Except.error _ => Except.ok (pyStr d)
      | Except.ok v =>
          match v with
          | PyVal.none => Except.ok (pyStr d)
          | v2 => Except.ok (pyStr v2)

/-- The attribute dict handed to the segment-file evaluator on app.py
lines 437 and 466: `{"userId": user_id}` with the raw caller-supplied
user id (no anonymous defaulting). -/
def fs_attrs (user_id : String) : Attrs :=
  [("userId", PyVal.str user_id)]

/-! ## The unified boundary `ff_bool` / `ff_str` (app.py lines 417-470) -/

/-- The module-level state the two boundary functions read: the
configured default provider, the four external clients (absent when
never initialized), the installed LD context API, the two document paths
and the two offline cache states. -/
structure World where
  BACKEND_PROVIDER : String
  of_client : Option OFClient
  ld_client : Option LDClient
  ld_online_client : Option LDClient
  fs_online_client : Option FSMClient
  ld_api : LDApi
  gb_path : String
  fs_path : String
  gb_state : GBState
  fs_state : FSState

/-- `ff_bool(flag_key, default, user_id, provider)` (lines 417-441):
resolve the effective provider, dispatch to the adapter; an unrecognized
effective provider falls through to `bool(default)`. -/
def ff_bool (gbfs : FileSys GBDoc) (fsfs : FileSys FSDoc) (w : World)
    (flag_key : String) (d : PyVal) (user_id : String)
    (provider : Option String) : Except String (Bool × World) :=
  let p := effective_provider provider w.BACKEND_PROVIDER
  if p = "launchdarkly" then
    match w.ld_client with
    | Option.none => Except.error "LaunchDarkly (file mode) client not initialized"
    | Option.some c =>
        match build_ld_context w.ld_api user_id with
        | Except.error e => Except.error e
        | Except.ok ctx =>
            match c.variation flag_key ctx d with
            | Except.error e => Except.error e
            | Except.ok v => Except.ok (pyTruthy v, w)
  else if p = "launchdarkly-online" then
    match w.ld_online_client with
    | Option.none => Except.error "LaunchDarkly online client not initialized"
    | Option.some c =>
        match build_ld_context w.ld_api user_id with
        | Except.error e => Except.error e
        | Except.ok ctx =>
            match c.variation flag_key ctx d with
            | Except.error e => Except.error e
            | Except.ok v => Except.ok (pyTruthy v, w)
  else if p = "flagd" then
    match w.of_client with
    | Option.none => Except.error "OpenFeature (flagd) client not initialized"
    | Option.some c =>
        match c.getBool flag_key d (build_of_context user_id) with
        | Except.error e => Except.error e
        | Except.ok v => Except.ok (pyTruthy v, w)
  else if p = "growthbook" then
    match gb_get_value gbfs w.gb_path w.gb_state flag_key d user_id with
    | Except.error e => Except.error e
    | Except.ok (v, s) => Except.ok (pyTruthy v, { w with gb_state := s })
  else if p = "flagsmith" then
    match fs_resolve_state fsfs w.fs_path w.fs_state flag_key
        (fs_attrs user_id) with
    | Except.error e => Except.error e
    | Except.ok (st, s) =>
        Except.ok (fs_bool_from_state st d, { w with fs_state := s })
  else if p = "flagsmith-online" then
    match fsm_online_bool w.fs_online_client flag_key d user_id with
    | Except.error e => Except.error e
    | Except.ok b => Except.ok (b, w)
  else Except.ok (pyTruthy d, w)

/-- `ff_str(flag_key, default, user_id, provider)` (lines 443-470):
like `ff_bool` with `str(...)` coercion; an unrecognized effective
provider falls through to `str(default)`. -/
def ff_str (gbfs : FileSys GBDoc) (fsfs : FileSys FSDoc) (w : World)
    (flag_key : String) (d : PyVal) (user_id : String)
    (provider : Option String) : Except String (String × World) :=
  let p := effective_provider provider w.BACKEND_PROVIDER
  if p = "launchdarkly" then
    match w.ld_client with
    | Option.none => Except.error "LaunchDarkly (file mode) client not initialized"
    | Option.some c =>
        match build_ld_context w.ld_api user_id with
        | Except.error e => Except.error e
        | Except.ok ctx =>
            match c.variation flag_key ctx d with
            | Except.error e => Except.error e
            | Except.ok v => Except.ok (pyStr v, w)
  else if p = "launchdarkly-online" then
    match w.ld_online_client with
    | Option.none => Except.error "LaunchDarkly online client not initialized"
    | Option.some c =>
        match build_ld_context w.ld_api user_id with
        | Except.error e => Except.error e
        | Except.ok ctx =>
            match c.variation flag_key ctx d with
            | Except.error e => Except.error e
            | Except.ok v => Except.ok (pyStr v, w)
  else if p = "flagd" then
    match w.of_client with
    | Option.none => Except.error "OpenFeature (flagd) client not initialized"
    | Option.some c =>
        match c.getStr flag_key d (build_of_context user_id) with
        | Except.error e => Except.error e
        | Except.ok v => Except.ok (pyStr v, w)
  else if p = "growthbook" then
    match gb_get_value gbfs w.gb_path w.gb_state flag_key d user_id with
    | Except.error e => Except.error e
    | Except.ok (v, s) => Except.ok (pyStr v, { w with gb_state := s })
  else if p = "flagsmith" then
    match fs_resolve_state fsfs w.fs_path w.fs_state flag_key
        (fs_attrs user_id) with
    | Except.error e => Except.error e
    | Except.ok (st, s) =>
        Except.ok (fs_str_from_state st d, { w with fs_state := s })
  else if p = "flagsmith-online" then
    match fsm_online_str w.fs_online_client flag_key d user_id with
    | Except.error e => Except.error e
    | Except.ok v => Except.ok (v, w)
  else Except.ok (pyStr d, w)

/-! ## The reload of the segment-file indexes, traced statement by
statement (app.py lines 296-317) -/

/-- The intermediate states of a loop that mutates the module state once
per element: the state after each iteration. -/
def mutSteps {β : Type} (f : FSState → β → FSState) :
    FSState → List β → List FSState
  | _, [] => []
  | s, x :: xs => (f s x) :: mutSteps f (f s x) xs

/-- One iteration of the feature-name insertion loop (app.py lines
305-306) on the module state. -/
def nameStep (t : FSState) (f : FSFeature) : FSState :=
  { t with feature_id_by_name := upsert t.feature_id_by_name f.name f.id }

/-- One iteration of the segment insertion loop (lines 309-310). -/
def segStep (t : FSState) (sg : FSSegment) : FSState :=
  { t with segment_by_id := upsert t.segment_by_id sg.id sg }

/-- One iteration of the feature-state grouping loop (lines 313-317). -/
def stateStep (t : FSState) (st : FeatureState) : FSState :=
  { t with states_by_fid := stateGroupInsert t.states_by_fid st }

/-- The fully rebuilt module state after a successful reload of document
`d` at mtime `m`. -/
def fs_rebuilt (d : FSDoc) (m : Option Nat) : FSState :=
  { doc := Option.some d, mtime := m,
    feature_id_by_name := fs_feature_id_by_name d.features,
    segment_by_id := fs_segment_by_id d.segments,
    states_by_fid := fs_states_by_fid d.feature_states }

/-- The sequence of module states `_fs_reload_if_needed` passes through
after the cache returned a fresh document (lines 301-317), one element
per executed statement resp. loop iteration: assign `_fs_doc`, assign
`_fs_mtime`, clear `_fs_feature_id_by_name`, one insertion per feature,
clear `_fs_segment_by_id`, one insertion per segment, clear
`_fs_states_by_fid`, one insertion per feature state.  The three index
dicts are the live, shared structures: they are cleared and repopulated
in place. -/
def fs_reload_steps (s : FSState) (d : FSDoc) (m : Option Nat) :
    List FSState :=
  let s1 : FSState := { s with doc := Option.some d }
  let s2 : FSState := { s1 with mtime := m }
  let s3 : FSState := { s2 with feature_id_by_name := [] }
  let nameSteps := mutSteps nameStep s3 d.features
  let s4 := nameSteps.getLastD s3
  let s5 : FSState := { s4 with segment_by_id := [] }
  let segSteps := mutSteps segStep s5 d.segments
  let s6 := segSteps.getLastD s5
  let s7 : FSState := { s6 with states_by_fid := [] }
  let stSteps := mutSteps stateStep s7 d.feature_states
  [s1, s2, s3] ++ nameSteps ++ [s5] ++ segSteps ++ [s7] ++ stSteps

/-- The initial module state before any document was loaded. -/
def fsInit : FSState :=
  { doc := Option.none, mtime := Option.none, feature_id_by_name := [],
    segment_by_id := [], states_by_fid := [] }

/-- A second revision of the vip document: same feature name, different
states. -/
def newVipDoc : FSDoc :=
  { features := [{ id := 10, name := "flag" }],
    segments := [],
    feature_states := [{ feature_id := 10, segment_id := Option.none,
                         value := Option.some (PyVal.str "green"),
                         enabled := Option.none }] }

/-- A Flagsmith online client whose backend calls always raise a
transport error. -/
def demoFSMFailClient : FSMClient :=
  { callBool := fun _ _ _ => Except.error "transport failure",
    callStr := fun _ _ _ => Except.error "transport failure" }

/-- A concrete module state: unrecognized configured default provider, a
failing Flagsmith online client, everything else uninitialized. -/
def demoWorld : World :=
  { BACKEND_PROVIDER := "weird",
    of_client := Option.none, ld_client := Option.none,
    ld_online_client := Option.none,
    fs_online_client := Option.some demoFSMFailClient,
    ld_api := LDApi.builder,
    gb_path := "gb.json", fs_path := "fs.json",
    gb_state := { doc := Option.none, mtime := Option.none },
    fs_state := fsInit }

/-- An empty filesystem for the GrowthBook document. -/
def demoGBFS : FileSys GBDoc := fun _ => Option.none

/-- An empty filesystem for the Flagsmith document. -/
def demoFSFS : FileSys FSDoc := fun _ => Option.none

/-- A document whose flag has a rule matching the empty-string userId. -/
def emptyUidDoc : GBDoc :=
  [("flag", { defaultValue := Option.some (PyVal.bool false),
              rules := [{ condition := [("userId", PyVal.str "")],
                          force := Option.some (PyVal.bool true) }] })]

/-! ## Theorems -/

/-- Dict lookup on a cons cell. -/
theorem assoc_cons {κ α : Type} [DecidableEq κ] (p : κ × α)
    (m : List (κ × α)) (k : κ) :
    assoc (p :: m) k = if p.1 = k then Option.some p.2 else assoc m k := by
  by_cases h : p.1 = k
  · simp [assoc, List.find?_cons_of_pos, h]
  · simp only [assoc]
    rw [List.find?_cons_of_neg _ (by simpa using h), if_neg h]

/-- A dict with no entry for `k` looks up to `none`. -/
theorem assoc_eq_none_of_not_any {κ α : Type} [DecidableEq κ]
    (m : List (κ × α)) (k : κ)
    (h : m.any (fun p => decide (p.1 = k)) = false) :
    assoc m k = Option.none := by
  induction m with
  | nil => rfl
  | cons p m ih =>
      simp only [List.any_cons, Bool.or_eq_false_iff] at h
      rw [assoc_cons, if_neg (by simpa using h.1)]
      exact ih h.2

/-- In-place overwrite of key `k` leaves every other key's lookup
unchanged. -/
theorem assoc_map_overwrite_ne {κ α : Type} [DecidableEq κ]
    (m : List (κ × α)) (k : κ) (v : α) (j : κ) (hj : j ≠ k) :
    assoc (m.map (fun p => if p.1 = k then (k, v) else p)) j = assoc m j := by
  induction m with
  | nil => rfl
  | cons p m ih =>
      by_cases hp : p.1 = k
      · rw [List.map_cons, if_pos hp, assoc_cons, assoc_cons,
          if_neg (show ¬((k, v).1 = j) from fun h => hj h.symm),
          if_neg (show ¬(p.1 = j) from fun h => hj (by rw [← h]; exact hp)),
          ih]
      · rw [List.map_cons, if_neg hp, assoc_cons, assoc_cons, ih]

/-- In-place overwrite of an existing key `k` makes `k` look up to the new
value. -/
theorem assoc_map_overwrite_self {κ α : Type} [DecidableEq κ]
    (m : List (κ × α)) (k : κ) (v : α)
    (hany : m.any (fun p => decide (p.1 = k)) = true) :
    assoc (m.map (fun p => if p.1 = k then (k, v) else p)) k =
      Option.some v := by
  induction m with
  | nil => simp at hany
  | cons p m ih =>
      by_cases hp : p.1 = k
      · rw [List.map_cons, if_pos hp, assoc_cons, if_pos rfl]
      · rw [List.map_cons, if_neg hp, assoc_cons, if_neg hp]
        apply ih
        simpa [hp] using hany

/-- Dict lookup distributes over list append, first list first. -/
theorem assoc_append {κ α : Type} [DecidableEq κ] (m1 m2 : List (κ × α))
    (k : κ) :
    assoc (m1 ++ m2) k =
      (match assoc m1 k with
       | Option.some v => Option.some v
       | Option.none => assoc m2 k) := by
  induction m1 with
  | nil => rfl
  | cons p m ih =>
      rw [List.cons_append, assoc_cons, assoc_cons]
      by_cases hp : p.1 = k
      · simp [hp]
      · simp [hp, ih]

/-- Lookup after a Python dict insertion: the inserted key maps to the new
value, every other key is unaffected. -/
theorem assoc_upsert {κ α : Type} [DecidableEq κ] (m : List (κ × α))
    (k : κ) (v : α) (j : κ) :
    assoc (upsert m k v) j = if j = k then Option.some v else assoc m j := by
  by_cases hany : m.any (fun p => decide (p.1 = k)) = true
  · rw [upsert, if_pos hany]
    by_cases hj : j = k
    · subst hj
      rw [assoc_map_overwrite_self m j v hany, if_pos rfl]
    · rw [assoc_map_overwrite_ne m k v j hj, if_neg hj]
  · rw [upsert, if_neg hany, assoc_append]
    by_cases hj : j = k
    · subst hj
      rw [assoc_eq_none_of_not_any m j (Bool.eq_false_iff.mpr hany)]
      simp [assoc_cons]
    · rw [if_neg hj]
      cases h : assoc m j
      · rw [assoc_cons, if_neg (fun h2 => hj h2.symm)]
        rfl
      · rfl

/-- The rule loop of `_gb_get_value` realizes first-match-wins: it is the
`List.find?` of the first rule matching the attributes. -/
theorem gb_scan_eq_find (attrs : Attrs) (fd : Option PyVal) (d : PyVal)
    (rs : List GBRule) :
    gb_scan attrs fd d rs =
      (match rs.find? (gb_rule_matches attrs) with
       | Option.some r => r.force.getD (fd.getD d)
       | Option.none => fd.getD d) := by
  induction rs with
  | nil => rfl
  | cons r rs ih =>
      by_cases h : gb_rule_matches attrs r
      · simp [gb_scan, List.find?_cons_of_pos _ h, h]
      · simp [gb_scan, List.find?_cons_of_neg _ h, h, ih]

/-- Claim C2: the Document Cache contract of `_load_json_with_cache`.
(i) a missing path fails with the not-found error; (ii) an existing file
whose mtime strictly exceeds the previous mtime (or no previous mtime)
returns the freshly parsed document and the new mtime; (iii) otherwise
absent and the unchanged previous mtime; and consequently (iv) with an
unchanged modification time the previously cached document keeps
determining the evaluator result even when the on-disk content differs. -/
theorem c2_document_cache_contract {α : Type} (fsys : FileSys α)
    (path : String) (prev : Option Nat) :
    (fsys path = Option.none →
      load_json_with_cache fsys path prev =
        Except.error ("JSON file not found: " ++ path)) ∧
    (∀ info, fsys path = Option.some info →
      (prev = Option.none ∨ ∃ m, prev = Option.some m ∧ m < info.mtime) →
      load_json_with_cache fsys path prev =
        Except.ok (Option.some info.content, Option.some info.mtime)) ∧
    (∀ info m, fsys path = Option.some info → prev = Option.some m →
      info.mtime ≤ m →
      load_json_with_cache fsys path prev =
        Except.ok (Option.none, Option.some m)) ∧
    (∀ (fsys2 : FileSys GBDoc) (p2 : String) (s : GBState)
       (info2 : FileInfo GBDoc) (m : Nat) (flag : String) (d : PyVal)
       (uid : String) (doc0 : GBDoc),
      fsys2 p2 = Option.some info2 → s.mtime = Option.some m →
      info2.mtime ≤ m → s.doc = Option.some doc0 →
      gb_get_value fsys2 p2 s flag d uid =
        Except.ok
          ((if doc0.isEmpty then d else gb_resolve doc0 flag (gb_attrs uid) d),
           s)) := by
  refine ⟨?_, ?_, ?_, ?_⟩
  · intro h
    simp [load_json_with_cache, h]
  · intro info h hd
    rcases hd with h0 | ⟨m, hm, hlt⟩
    · subst h0
      simp [load_json_with_cache, h]
    · subst hm
      simp [load_json_with_cache, h, hlt]
  · intro info m h hp hle
    subst hp
    simp [load_json_with_cache, h, Nat.not_lt.mpr hle]
  · intro fsys2 p2 s info2 m flag d uid doc0 h hp hle hdoc
    simp only [gb_get_value, gb_reload_if_needed, load_json_with_cache, h, hp,
      Nat.not_lt.mpr hle, hdoc, if_false]
    split <;> simp_all

/-- Witness for `c2_document_cache_contract` at a concrete input: a file
whose mtime (3) does not exceed the cached mtime (3) yields absent and the
unchanged mtime. -/
theorem c2_document_cache_contract_witness :
    load_json_with_cache
      (fun p => if p = "features.json"
                then Option.some { mtime := 3, content := ([] : GBDoc) }
                else Option.none)
      "features.json" (Option.some 3) =
      Except.ok (Option.none, Option.some 3) :=
  (c2_document_cache_contract _ "features.json" (Option.some 3)).2.2.1
    { mtime := 3, content := ([] : GBDoc) } 3 (by simp) rfl (by decide)

/-- Claim C3: the Simple-Condition Evaluator of `_gb_get_value`: an absent
flag key yields the caller default; otherwise the first rule (in document
order) whose condition entries all string-equality-match the attributes
contributes its `force` (falling back to the feature's `defaultValue`,
then the caller default); no match exhausts to the feature's
`defaultValue`, then the caller default; and the spec's concrete
pradyun/other instances. -/
theorem c3_simple_condition_evaluator :
    (∀ (doc : GBDoc) (flag : String) (attrs : Attrs) (d : PyVal),
      assoc doc flag = Option.none → gb_resolve doc flag attrs d = d) ∧
    (∀ (doc : GBDoc) (flag : String) (attrs : Attrs) (d : PyVal)
       (feat : GBFeature),
      assoc doc flag = Option.some feat →
      gb_resolve doc flag attrs d =
        (match feat.rules.find? (gb_rule_matches attrs) with
         | Option.some r => r.force.getD (feat.defaultValue.getD d)
         | Option.none => feat.defaultValue.getD d)) ∧
    gb_resolve pradyunDoc "flag" (gb_attrs "pradyun") (PyVal.bool false) =
      PyVal.bool true ∧
    gb_resolve pradyunDoc "flag" (gb_attrs "other") (PyVal.bool false) =
      PyVal.bool false := by
  refine ⟨?_, ?_, by decide, by decide⟩
  · intro doc flag attrs d h
    simp [gb_resolve, h]
  · intro doc flag attrs d feat h
    simp [gb_resolve, h, gb_scan_eq_find]

/-- Witness for `c3_simple_condition_evaluator` at a concrete input: the
pradyun document's flag resolved through the first-match
characterization. -/
theorem c3_simple_condition_evaluator_witness :
    gb_resolve pradyunDoc "flag" (gb_attrs "pradyun") (PyVal.bool false) =
      PyVal.bool true := by
  have h := c3_simple_condition_evaluator.2.1 pradyunDoc "flag"
    (gb_attrs "pradyun") (PyVal.bool false)
    { defaultValue := Option.some (PyVal.bool false),
      rules := [{ condition := [("userId", PyVal.str "pradyun")],
                  force := Option.some (PyVal.bool true) }] } (by decide)
  rw [h]
  decide

/-- Claim C8, counterexample: a condition entry whose attribute is missing
from the attribute map nevertheless matches when the condition's expected
value is JSON null, because the missing attribute coerces to the string
placeholder `"None"` and `str(None) = "None"` — so the rule containing it
is accepted, not rejected. -/
theorem c8_counterexample_null_condition_value :
    assoc (gb_attrs "u") "other" = Option.none ∧
    gb_cond_entry_matches (gb_attrs "u") "other" PyVal.none = true ∧
    gb_rule_matches (gb_attrs "u")
      { condition := [("other", PyVal.none)],
        force := Option.some (PyVal.bool true) } = true := by
  decide

/-- Claim C8 (amended): a condition entry whose attribute name is missing
from the attribute map fails to match provided the condition's expected
value does not itself stringify to the placeholder `"None"` (i.e. is not
JSON null nor a value printing as "None"); a rule containing such an
entry is rejected. -/
theorem c8_missing_attribute_fails (attrs : Attrs) (k : String) (v : PyVal)
    (hmiss : assoc attrs k = Option.none) (hv : pyStr v ≠ "None") :
    gb_cond_entry_matches attrs k v = false ∧
    (∀ r : GBRule, (k, v) ∈ r.condition → gb_rule_matches attrs r = false) := by
  have hentry : gb_cond_entry_matches attrs k v = false := by
    simp only [gb_cond_entry_matches, hmiss, pyStrOpt, decide_eq_false_iff_not]
    exact fun h => hv h.symm
  refine ⟨hentry, ?_⟩
  intro r hr
  simp only [gb_rule_matches]
  refine List.all_eq_false.mpr ⟨(k, v), hr, ?_⟩
  simp [hentry]

/-- Witness for `c8_missing_attribute_fails` at a concrete input: the
attribute `"other"` is missing and the expected value `"x"` does not
stringify to "None", so the entry and its rule fail. -/
theorem c8_missing_attribute_fails_witness :
    gb_cond_entry_matches (gb_attrs "u") "other" (PyVal.str "x") = false :=
  (c8_missing_attribute_fails (gb_attrs "u") "other" (PyVal.str "x")
    (by decide) (by decide)).1

/-- A dict without an entry for `k` has `any` false on `k`. -/
theorem not_any_of_assoc_eq_none {κ α : Type} [DecidableEq κ]
    (m : List (κ × α)) (k : κ) (h : assoc m k = Option.none) :
    m.any (fun p => decide (p.1 = k)) = false := by
  induction m with
  | nil => rfl
  | cons p m ih =>
      rw [assoc_cons] at h
      by_cases hp : p.1 = k
      · rw [if_pos hp] at h
        cases h
      · rw [if_neg hp] at h
        simp [hp, ih h]

/-- The grouping fold of `_fs_states_by_fid` accumulates, per feature id,
exactly the document-order sublist of states with that id. -/
theorem assoc_states_fold (sts : List FeatureState)
    (m : List (Int × List FeatureState)) (fid : Int) :
    (assoc (sts.foldl stateGroupInsert m) fid).getD [] =
      ((assoc m fid).getD []) ++
        (sts.filter (fun st => decide (st.feature_id = fid))) := by
  induction sts generalizing m with
  | nil => simp
  | cons st sts ih =>
      rw [List.foldl_cons, ih]
      simp only [stateGroupInsert]
      by_cases h : st.feature_id = fid
      · rw [assoc_upsert, if_pos h.symm,
          List.filter_cons_of_pos (by simpa using h)]
        simp [h, List.append_assoc]
      · rw [assoc_upsert, if_neg (fun h2 => h h2.symm),
          List.filter_cons_of_neg (by simpa using h)]

/-- The `id → states` index looks up to the document-order filter of the
feature states. -/
theorem assoc_fs_states_by_fid (sts : List FeatureState) (fid : Int) :
    (assoc (fs_states_by_fid sts) fid).getD [] =
      sts.filter (fun st => decide (st.feature_id = fid)) := by
  simpa using assoc_states_fold sts [] fid

/-- Folding Python dict insertions over entries with pairwise distinct
keys (all fresh for the accumulator) appends the entries in order. -/
theorem foldl_upsert_of_nodup {κ α β : Type} [DecidableEq κ]
    (key : β → κ) (val : β → α) (xs : List β) (m : List (κ × α))
    (hnd : (xs.map key).Nodup)
    (hdisj : ∀ x ∈ xs, assoc m (key x) = Option.none) :
    xs.foldl (fun m x => upsert m (key x) (val x)) m =
      m ++ xs.map (fun x => (key x, val x)) := by
  induction xs generalizing m with
  | nil => simp
  | cons x xs ih =>
      rw [List.map_cons, List.nodup_cons] at hnd
      have hx : assoc m (key x) = Option.none := hdisj x (by simp)
      have hup : upsert m (key x) (val x) = m ++ [(key x, val x)] := by
        rw [upsert, if_neg (by simp [not_any_of_assoc_eq_none m (key x) hx])]
      rw [List.foldl_cons, hup, ih (m ++ [(key x, val x)]) hnd.2]
      · simp
      · intro y hy
        rw [assoc_append, hdisj y (List.mem_cons_of_mem x hy), assoc_cons,
          if_neg (fun h => hnd.1 (by
            rw [show key x = key y from h]
            exact List.mem_map_of_mem key hy))]
        rfl

/-- Dict lookup over a key/value projection of a list is first-match on
the projected key. -/
theorem assoc_map_pair {κ α β : Type} [DecidableEq κ]
    (key : β → κ) (val : β → α) (xs : List β) (k : κ) :
    assoc (xs.map (fun x => (key x, val x))) k =
      (xs.find? (fun x => decide (key x = k))).map val := by
  induction xs with
  | nil => rfl
  | cons x xs ih =>
      rw [List.map_cons, assoc_cons]
      by_cases h : key x = k
      · rw [if_pos h, List.find?_cons_of_pos _ (by simpa using h)]
        rfl
      · rw [if_neg h, List.find?_cons_of_neg _ (by simpa using h), ih]

/-- With pairwise distinct segment ids (as in any well-formed document),
the `id → segment` dict is the document-order pairing. -/
theorem fs_segment_by_id_eq (segs : List FSSegment)
    (hnd : (segs.map (fun sg => sg.id)).Nodup) :
    fs_segment_by_id segs = segs.map (fun sg => (sg.id, sg)) := by
  simpa [fs_segment_by_id] using
    foldl_upsert_of_nodup (fun sg => sg.id) (fun sg => sg) segs [] hnd
      (fun x _ => rfl)

/-- With pairwise distinct feature names, the `name → id` dict looks up
to the document-order first feature of that name. -/
theorem fs_feature_id_by_name_eq (feats : List FSFeature)
    (hnd : (feats.map (fun f => f.name)).Nodup) :
    assoc (fs_feature_id_by_name feats) =
      fun nm => (feats.find? (fun f => decide (f.name = nm))).map
        (fun f => f.id) := by
  funext nm
  rw [fs_feature_id_by_name,
    foldl_upsert_of_nodup (fun f => f.name) (fun f => f.id) feats [] hnd
      (fun x _ => rfl)]
  simpa using assoc_map_pair (fun f => f.name) (fun f => f.id) feats nm

/-- The matched-segment-id pass over the `id → segment` dict equals the
document-order filter of matching segments, given distinct segment ids. -/
theorem fs_matched_ids_eq (segs : List FSSegment) (attrs : Attrs)
    (hnd : (segs.map (fun sg => sg.id)).Nodup) :
    fs_matched_seg_ids (fs_segment_by_id segs) attrs =
      (segs.filter (fun sg => fs_match_segment sg attrs)).map
        (fun sg => sg.id) := by
  rw [fs_matched_seg_ids, fs_segment_by_id_eq segs hnd]
  induction segs with
  | nil => rfl
  | cons sg segs ih =>
      rw [List.map_cons]
      by_cases h : fs_match_segment sg attrs
      · rw [List.filter_cons_of_pos (by simpa using h),
          List.filter_cons_of_pos (by simpa using h), List.map_cons,
          List.map_cons]
        exact congrArg _ (ih (by simpa using hnd.of_cons))
      · rw [List.filter_cons_of_neg (by simpa using h),
          List.filter_cons_of_neg (by simpa using h)]
        exact ih (by simpa using hnd.of_cons)

/-- The inner loop returns `False` at a rule of type `"ALL"` containing a
condition whose operator is not `"EQUAL"`. -/
theorem fs_match_rules_false_of_bad (attrs : Attrs) (rules : List FSRule)
    (r : FSRule) (c : FSCond) (hr : r ∈ rules)
    (ht : r.type = Option.some "ALL") (hc : c ∈ r.conditions)
    (hop : c.operator ≠ Option.some "EQUAL") :
    fs_match_rules attrs rules = false := by
  induction rules with
  | nil => cases hr
  | cons hd tl ih =>
      rcases List.mem_cons.mp hr with h0 | h0
      · subst h0
        have hall : r.conditions.all (fs_cond_ok attrs) = false :=
          List.all_eq_false.mpr ⟨c, hc, by simp [fs_cond_ok, hop]⟩
        simp [fs_match_rules, ht, hall]
      · by_cases hty : hd.type = Option.some "ALL"
        · by_cases hall : hd.conditions.all (fs_cond_ok attrs) = true
          · simp [fs_match_rules, hty, hall, ih h0]
          · simp [fs_match_rules, hty, hall]
        · simp [fs_match_rules, hty, ih h0]

/-- The rule loop skips every rule whose type is not `"ALL"`. -/
theorem fs_match_rules_true_of_no_all (attrs : Attrs) (rules : List FSRule)
    (h : ∀ r ∈ rules, r.type ≠ Option.some "ALL") :
    fs_match_rules attrs rules = true := by
  induction rules with
  | nil => rfl
  | cons hd tl ih =>
      simp only [fs_match_rules, if_neg (h hd (by simp))]
      exact ih (fun r hr => h r (List.mem_cons_of_mem hd hr))

/-- Claim C4, counterexample: a segment whose only rule has the
unsupported type `"ANY"` — with a condition whose operator is the
unsupported `"GREATER_THAN"` — nevertheless matches: `_fs_match_segment`
skips (`continue`) every rule whose type is not `"ALL"`, so neither the
unsupported rule type nor the unsupported operator inside it forces a
non-match. -/
theorem c4_counterexample_non_all_rule_matches :
    fs_match_segment
      { id := 5,
        rules := [{ type := Option.some "ANY",
                    conditions := [{ property := Option.some "userId",
                                     operator := Option.some "GREATER_THAN",
                                     value := Option.some (PyVal.str "x") }] }] }
      [("userId", PyVal.str "zzz")] = true := by
  decide

/-- Claim C4 (amended): within a rule of type `"ALL"`, any condition
whose operator is not `"EQUAL"` forces the whole segment to non-match
(fail-closed); in particular an `"ALL"`-rule condition with operator
`"GREATER_THAN"` never matches regardless of attribute values.  A rule
whose type is not `"ALL"`, however, is skipped entirely together with
all its conditions, so a segment all of whose rules have other types
matches vacuously. -/
theorem c4_fail_closed_operators (seg : FSSegment) (attrs : Attrs) :
    (∀ (r : FSRule) (c : FSCond), r ∈ seg.rules →
      r.type = Option.some "ALL" → c ∈ r.conditions →
      c.operator ≠ Option.some "EQUAL" →
      fs_match_segment seg attrs = false) ∧
    ((∀ r ∈ seg.rules, r.type ≠ Option.some "ALL") →
      fs_match_segment seg attrs = true) ∧
    (∀ (a2 : Attrs), fs_match_segment gtSeg a2 = false) := by
  refine ⟨?_, ?_, ?_⟩
  · intro r c hr ht hc hop
    exact fs_match_rules_false_of_bad attrs seg.rules r c hr ht hc hop
  · intro h
    exact fs_match_rules_true_of_no_all attrs seg.rules h
  · intro a2
    simp [gtSeg, fs_match_segment, fs_match_rules, fs_cond_ok]

/-- Witness for `c4_fail_closed_operators` at a concrete input: the
`GREATER_THAN` condition inside the `"ALL"` rule of `gtSeg` forces a
non-match. -/
theorem c4_fail_closed_operators_witness :
    fs_match_segment gtSeg [("userId", PyVal.str "999")] = false :=
  (c4_fail_closed_operators gtSeg [("userId", PyVal.str "999")]).1
    { type := Option.some "ALL",
      conditions := [{ property := Option.some "userId",
                       operator := Option.some "GREATER_THAN",
                       value := Option.some (PyVal.str "10") }] }
    { property := Option.some "userId",
      operator := Option.some "GREATER_THAN",
      value := Option.some (PyVal.str "10") }
    (by decide) rfl (by decide) (by decide)

/-- Claim C5, counterexample: a feature whose numeric id is 0 is treated
as unknown by the falsy check `if not fid`, so although a default
(null-segment) state for it exists in the document, `_fs_resolve_state`
signals absent — no FeatureState is selected — while the claimed
document-order selection picks the default state. -/
theorem c5_counterexample_zero_feature_id :
    assoc (fs_feature_id_by_name zeroIdDoc.features) "f" = Option.some 0 ∧
    fs_resolve_from_idx (fs_feature_id_by_name zeroIdDoc.features)
      (fs_segment_by_id zeroIdDoc.segments)
      (fs_states_by_fid zeroIdDoc.feature_states)
      "f" [("userId", PyVal.str "u")] = Option.none ∧
    fs_resolve_docorder zeroIdDoc 0 [("userId", PyVal.str "u")] =
      Option.some { feature_id := 0, segment_id := Option.none,
                    value := Option.some (PyVal.str "blue"),
                    enabled := Option.none } := by
  decide

/-- Claim C5 (amended): for every flag whose looked-up numeric feature id
is nonzero (a feature id of 0 is treated as unknown by the falsy check)
and a document with pairwise distinct segment ids, the selection is
deterministic and in document order: the first state whose `segment_id`
is among the matching segments, else the first state with null
`segment_id`, else absent (and the caller's default applies).  A flag
absent from the name index signals absent.  The spec's red/blue example
evaluates accordingly. -/
theorem c5_state_selection (doc : FSDoc) (flag : String) (attrs : Attrs)
    (fid : Int)
    (hname : assoc (fs_feature_id_by_name doc.features) flag =
      Option.some fid)
    (hfid : fid ≠ 0)
    (hseg : (doc.segments.map (fun sg => sg.id)).Nodup) :
    fs_resolve_from_idx (fs_feature_id_by_name doc.features)
      (fs_segment_by_id doc.segments) (fs_states_by_fid doc.feature_states)
      flag attrs = fs_resolve_docorder doc fid attrs ∧
    (∀ (flag2 : String),
      assoc (fs_feature_id_by_name doc.features) flag2 = Option.none →
      fs_resolve_from_idx (fs_feature_id_by_name doc.features)
        (fs_segment_by_id doc.segments) (fs_states_by_fid doc.feature_states)
        flag2 attrs = Option.none) ∧
    fs_str_from_state
      (fs_resolve_from_idx (fs_feature_id_by_name vipDoc.features)
        (fs_segment_by_id vipDoc.segments)
        (fs_states_by_fid vipDoc.feature_states)
        "flag" [("userId", PyVal.str "vip")]) (PyVal.str "green") = "red" ∧
    fs_str_from_state
      (fs_resolve_from_idx (fs_feature_id_by_name vipDoc.features)
        (fs_segment_by_id vipDoc.segments)
        (fs_states_by_fid vipDoc.feature_states)
        "flag" [("userId", PyVal.str "guest")]) (PyVal.str "green") =
      "blue" := by
  refine ⟨?_, ?_, by decide, by decide⟩
  · simp only [fs_resolve_from_idx, hname, if_neg hfid,
      assoc_fs_states_by_fid, fs_matched_ids_eq doc.segments attrs hseg,
      fs_resolve_docorder]
    by_cases hempty :
        (doc.feature_states.filter
          (fun st => decide (st.feature_id = fid))).isEmpty
    · rw [if_pos hempty]
      rw [List.isEmpty_iff] at hempty
      rw [hempty]
      rfl
    · rw [if_neg hempty]
  · intro flag2 h2
    simp [fs_resolve_from_idx, h2]

/-- Witness for `c5_state_selection` at a concrete input: the red/blue
document resolved through the document-order characterization for the
vip user. -/
theorem c5_state_selection_witness :
    fs_resolve_from_idx (fs_feature_id_by_name vipDoc.features)
      (fs_segment_by_id vipDoc.segments) (fs_states_by_fid vipDoc.feature_states)
      "flag" [("userId", PyVal.str "vip")] =
      fs_resolve_docorder vipDoc 10 [("userId", PyVal.str "vip")] :=
  (c5_state_selection vipDoc "flag" [("userId", PyVal.str "vip")] 10
    (by decide) (by decide) (by decide)).1

/-- A nonempty requested provider whose normal form is a known name is
the effective provider, whatever the configured default. -/
theorem effective_provider_of_known (s : String) (bp : String)
    (hs : s ≠ "") (hk : pyStrip (pyLower s) ∈ knownProviders) :
    effective_provider (Option.some s) bp = pyStrip (pyLower s) := by
  simp only [effective_provider, if_neg hs, if_pos hk]

/-- Claim C6: the segment-online adapter degrades to the caller default:
with an initialized client, a raised transport error makes `ff_bool`
return the default coerced to bool and `ff_str` the default coerced to
string (the failure is logged, not propagated); with an uninitialized
client both fail with an error instead of degrading. -/
theorem c6_segment_online_degrades (gbfs : FileSys GBDoc)
    (fsfs : FileSys FSDoc) (w : World) (flag : String) (d : PyVal)
    (uid : String) :
    (∀ (c : FSMClient) (e1 : String),
      w.fs_online_client = Option.some c →
      c.callBool (orAnon uid) (fsm_traits uid) flag = Except.error e1 →
      ff_bool gbfs fsfs w flag d uid (Option.some "flagsmith-online") =
        Except.ok (pyTruthy d, w)) ∧
    (∀ (c : FSMClient) (e1 : String),
      w.fs_online_client = Option.some c →
      c.callStr (orAnon uid) (fsm_traits uid) flag = Except.error e1 →
      ff_str gbfs fsfs w flag d uid (Option.some "flagsmith-online") =
        Except.ok (pyStr d, w)) ∧
    (w.fs_online_client = Option.none →
      ff_bool gbfs fsfs w flag d uid (Option.some "flagsmith-online") =
        Except.error "Flagsmith online client not initialized" ∧
      ff_str gbfs fsfs w flag d uid (Option.some "flagsmith-online") =
        Except.error "Flagsmith online client not initialized") := by
  have hp : effective_provider (Option.some "flagsmith-online")
      w.BACKEND_PROVIDER = "flagsmith-online" := by
    rw [effective_provider_of_known _ _ (by decide) (by decide)]
    decide
  refine ⟨?_, ?_, ?_⟩
  · intro c e1 hc hcall
    simp [ff_bool, hp, fsm_online_bool, hc, hcall]
  · intro c e1 hc hcall
    simp [ff_str, hp, fsm_online_str, hc, hcall]
  · intro hc
    constructor
    · simp [ff_bool, hp, fsm_online_bool, hc]
    · simp [ff_str, hp, fsm_online_str, hc]

/-- Witness for `c6_segment_online_degrades` at a concrete input: the
always-failing client makes `ff_bool` return the caller default `True`. -/
theorem c6_segment_online_degrades_witness :
    ff_bool demoGBFS demoFSFS demoWorld "new-badge" (PyVal.bool true) "u"
      (Option.some "flagsmith-online") =
      Except.ok (pyTruthy (PyVal.bool true), demoWorld) :=
  (c6_segment_online_degrades demoGBFS demoFSFS demoWorld "new-badge"
    (PyVal.bool true) "u").1 demoFSMFailClient "transport failure" rfl rfl

/-- Claim C7, counterexample: for the empty (falsy) caller userId, the
attribute map handed to the simple-condition evaluator is
`{"userId": ""}` — not `"anonymous"` — and this is observable: a rule
conditioned on the empty userId fires for the empty caller id but would
not fire for `"anonymous"`; the segment-file evaluator receives the same
raw map. -/
theorem c7_counterexample_raw_empty_userid :
    assoc (gb_attrs "") "userId" = Option.some (PyVal.str "") ∧
    PyVal.str "" ≠ PyVal.str "anonymous" ∧
    gb_resolve emptyUidDoc "flag" (gb_attrs "") (PyVal.bool false) =
      PyVal.bool true ∧
    gb_resolve emptyUidDoc "flag" [("userId", PyVal.str "anonymous")]
      (PyVal.bool false) = PyVal.bool false ∧
    fs_attrs "" = [("userId", PyVal.str "")] := by
  decide

/-- Claim C7 (amended): the context builders default the empty userId to
the literal `"anonymous"`: the flagd context carries
`userId = "anonymous"` as attribute and targeting key, the
builder-style LaunchDarkly context carries it as attribute, the
create-style LaunchDarkly context is keyed `"anonymous"` but carries no
`userId` attribute, and the Flagsmith-online traits carry
`userId = "anonymous"`; the attribute maps handed to the
simple-condition and segment-file evaluators, however, carry the raw
caller userId unchanged — the empty string stays empty. -/
theorem c7_anonymous_defaulting (uid : String) (huid : uid = "") :
    (build_of_context uid).attributes = [("userId", PyVal.str "anonymous")] ∧
    (build_of_context uid).targeting_key = "anonymous" ∧
    build_ld_context LDApi.builder uid =
      Except.ok { key := "anonymous",
                  attributes := [("userId", PyVal.str "anonymous")] } ∧
    build_ld_context LDApi.create uid =
      Except.ok { key := "anonymous", attributes := [] } ∧
    fsm_traits uid = [("userId", PyVal.str "anonymous")] ∧
    gb_attrs uid = [("userId", PyVal.str "")] ∧
    fs_attrs uid = [("userId", PyVal.str "")] := by
  subst huid
  exact ⟨rfl, rfl, rfl, rfl, rfl, rfl, rfl⟩

/-- Witness for `c7_anonymous_defaulting` at the concrete empty userId. -/
theorem c7_anonymous_defaulting_witness :
    (build_of_context "").attributes = [("userId", PyVal.str "anonymous")] :=
  (c7_anonymous_defaulting "" rfl).1

/-- `getLastD` of the empty list is the default. -/
theorem getLastD_nil {γ : Type} (d : γ) : ([] : List γ).getLastD d = d := rfl

/-- The last intermediate state of a mutation loop is its fold. -/
theorem mutSteps_getLastD {β : Type} (f : FSState → β → FSState)
    (s : FSState) (xs : List β) :
    (mutSteps f s xs).getLastD s = xs.foldl f s := by
  induction xs generalizing s with
  | nil => rfl
  | cons x xs ih =>
      rw [mutSteps, List.getLastD_cons, List.foldl_cons, ih]

/-- `getLastD` over an append chains through the left list's last. -/
theorem getLastD_append {γ : Type} (l1 l2 : List γ) (d : γ) :
    (l1 ++ l2).getLastD d = l2.getLastD (l1.getLastD d) := by
  induction l1 generalizing d with
  | nil => rfl
  | cons a l1 ih =>
      rw [List.cons_append, List.getLastD_cons, List.getLastD_cons, ih]

/-- The name-insertion loop only rewrites the `feature_id_by_name`
field. -/
theorem foldl_update_names (xs : List FSFeature) (t : FSState) :
    xs.foldl nameStep t =
      { t with feature_id_by_name :=
          xs.foldl (fun m f => upsert m f.name f.id) t.feature_id_by_name } := by
  induction xs generalizing t with
  | nil => rfl
  | cons x xs ih =>
      rw [List.foldl_cons, List.foldl_cons, ih]
      rfl

/-- The segment-insertion loop only rewrites the `segment_by_id` field. -/
theorem foldl_update_segs (xs : List FSSegment) (t : FSState) :
    xs.foldl segStep t =
      { t with segment_by_id :=
          xs.foldl (fun m sg => upsert m sg.id sg) t.segment_by_id } := by
  induction xs generalizing t with
  | nil => rfl
  | cons x xs ih =>
      rw [List.foldl_cons, List.foldl_cons, ih]
      rfl

/-- The state-insertion loop only rewrites the `states_by_fid` field. -/
theorem foldl_update_states (xs : List FeatureState) (t : FSState) :
    xs.foldl stateStep t =
      { t with states_by_fid := xs.foldl stateGroupInsert t.states_by_fid } := by
  induction xs generalizing t with
  | nil => rfl
  | cons x xs ih =>
      rw [List.foldl_cons, List.foldl_cons, ih]
      rfl

/-- Claim C9, counterexample: the reload of the segment-file document
mutates the live index structures in place (clear, then repopulate), so
a reader observing the module state mid-reload can see a partially
rebuilt index set: at the step right after `_fs_feature_id_by_name.clear()`
the new document is installed but the name index is empty while the
states index still holds the old document's entries — the flag of the
old document resolves to absent at that intermediate state, although it
resolves to a state under both the complete old and the complete new
index sets. -/
theorem c9_counterexample_partial_index :
    ((fs_reload_steps (fs_rebuilt vipDoc (Option.some 1)) newVipDoc
        (Option.some 2)).get? 2).map (fun t => t.feature_id_by_name) =
      Option.some [] ∧
    ((fs_reload_steps (fs_rebuilt vipDoc (Option.some 1)) newVipDoc
        (Option.some 2)).get? 2).map (fun t => t.doc) =
      Option.some (Option.some newVipDoc) ∧
    ((fs_reload_steps (fs_rebuilt vipDoc (Option.some 1)) newVipDoc
        (Option.some 2)).get? 2).map (fun t => t.states_by_fid) =
      Option.some (fs_states_by_fid vipDoc.feature_states) ∧
    ((fs_reload_steps (fs_rebuilt vipDoc (Option.some 1)) newVipDoc
        (Option.some 2)).get? 2).map (fun t =>
        fs_resolve_from_idx t.feature_id_by_name t.segment_by_id
          t.states_by_fid "flag" (fs_attrs "vip")) =
      Option.some Option.none ∧
    fs_resolve_from_idx (fs_rebuilt vipDoc (Option.some 1)).feature_id_by_name
      (fs_rebuilt vipDoc (Option.some 1)).segment_by_id
      (fs_rebuilt vipDoc (Option.some 1)).states_by_fid "flag"
      (fs_attrs "vip") =
      Option.some { feature_id := 10, segment_id := Option.some 1,
                    value := Option.some (PyVal.str "red"),
                    enabled := Option.none } ∧
    fs_resolve_from_idx (fs_rebuilt newVipDoc (Option.some 2)).feature_id_by_name
      (fs_rebuilt newVipDoc (Option.some 2)).segment_by_id
      (fs_rebuilt newVipDoc (Option.some 2)).states_by_fid "flag"
      (fs_attrs "vip") =
      Option.some { feature_id := 10, segment_id := Option.none,
                    value := Option.some (PyVal.str "green"),
                    enabled := Option.none } := by
  decide

/-- Claim C9 (amended): on every reload of the segment-file document the
three derived indexes are rebuilt in full — the final state of the
statement-by-statement reload trace is exactly the complete rebuild from
the new document, and `_fs_reload_if_needed` installs exactly that
state — but the rebuild clears and repopulates the live shared
structures in place rather than constructing new structures and swapping
references, so the intermediate states expose partially-rebuilt
indexes. -/
theorem c9_reload_rebuilds_fully (s : FSState) (d : FSDoc) (m : Option Nat) :
    (fs_reload_steps s d m).getLastD s = fs_rebuilt d m ∧
    (∀ (fsys : FileSys FSDoc) (path : String) (m0 : Nat),
      fsys path = Option.some { mtime := m0, content := d } →
      s.mtime = Option.none →
      fs_reload_if_needed fsys path s =
        Except.ok ((fs_reload_steps s d (Option.some m0)).getLastD s)) := by
  have h1 : ∀ (m2 : Option Nat),
      (fs_reload_steps s d m2).getLastD s = fs_rebuilt d m2 := by
    intro m2
    simp only [fs_reload_steps, getLastD_append, List.getLastD_cons,
      getLastD_nil, mutSteps_getLastD, foldl_update_names, foldl_update_segs,
      foldl_update_states]
    rfl
  refine ⟨h1 m, ?_⟩
  intro fsys path m0 hf hm
  rw [h1 (Option.some m0)]
  simp [fs_reload_if_needed, load_json_with_cache, hf, hm, fs_rebuilt,
    fs_rebuilt]

/-- Witness for `c9_reload_rebuilds_fully` at a concrete input: a first
load of the new document installs the final state of the reload trace. -/
theorem c9_reload_rebuilds_fully_witness :
    fs_reload_if_needed
      (fun p => if p = "env.json"
                then Option.some { mtime := 5, content := newVipDoc }
                else Option.none)
      "env.json" fsInit =
      Except.ok ((fs_reload_steps fsInit newVipDoc (Option.some 5)).getLastD
        fsInit) :=
  (c9_reload_rebuilds_fully fsInit newVipDoc (Option.some 5)).2 _ "env.json" 5
    rfl rfl

/-- Claim C10: when the effective provider name is outside the six
recognized names (possible only with an unrecognized configured default),
both boundary functions fall through without raising, whatever the state
of the clients: `ff_bool` returns the caller default coerced to bool and
`ff_str` returns it coerced to string. -/
theorem c10_unknown_provider_falls_through (gbfs : FileSys GBDoc)
    (fsfs : FileSys FSDoc) (w : World) (flag : String) (d : PyVal)
    (uid : String) (prov : Option String)
    (h : effective_provider prov w.BACKEND_PROVIDER ∉ knownProviders) :
    ff_bool gbfs fsfs w flag d uid prov = Except.ok (pyTruthy d, w) ∧
    ff_str gbfs fsfs w flag d uid prov = Except.ok (pyStr d, w) := by
  simp only [knownProviders, List.mem_cons, List.not_mem_nil, or_false,
    not_or] at h
  obtain ⟨h1, h2, h3, h4, h5, h6⟩ := h
  constructor
  · simp [ff_bool, h1, h2, h3, h4, h5, h6]
  · simp [ff_str, h1, h2, h3, h4, h5, h6]

/-- Witness for `c10_unknown_provider_falls_through` at a concrete input:
the configured default `"weird"` is not a recognized provider, and the
boolean boundary function returns the default without raising. -/
theorem c10_unknown_provider_falls_through_witness :
    ff_bool demoGBFS demoFSFS demoWorld "new-badge" (PyVal.bool true) "u"
      Option.none = Except.ok (pyTruthy (PyVal.bool true), demoWorld) :=
  (c10_unknown_provider_falls_through demoGBFS demoFSFS demoWorld "new-badge"
    (PyVal.bool true) "u" Option.none (by decide)).1

/-- Claim C1, counterexample: with an empty configured default provider and
no requested provider, `_effective_provider` yields the hardcoded
`"flagd"` (the code's name of the local-daemon provider) instead of
returning the configured default as-is, so the effective provider is not
the configured default. -/
theorem c1_counterexample_empty_default :
    effective_provider Option.none "" = "flagd" ∧ ("flagd" : String) ≠ "" := by
  decide

/-- Claim C1 (amended): provided the configured default is nonempty and
already lowercased/stripped (as the program guarantees for the
`BACKEND_PROVIDER` global), the effective provider is the requested name
(lowercased and trimmed) when that normal form is one of the six known
provider names, otherwise the configured default as-is; an absent or empty
requested provider yields the configured default.  With an empty
configured default, the absent-request case instead falls back to the
hardcoded `"flagd"`.  The spec's concrete instances hold under the
spec-name/code-name correspondence (local-daemon = flagd,
segment-file = flagsmith). -/
theorem c1_router_provider_selection (req : Option String) (d : String)
    (hnorm : pyStrip (pyLower d) = d) (hne : d ≠ "") :
    (req = Option.none → effective_provider req d = d) ∧
    (∀ s, req = Option.some s →
      effective_provider req d =
        (if s ≠ "" ∧ pyStrip (pyLower s) ∈ knownProviders
         then pyStrip (pyLower s) else d)) ∧
    effective_provider (Option.some "unknown-name") "flagd" = "flagd" ∧
    effective_provider (Option.some "flagsmith") "flagd" = "flagsmith" ∧
    effective_provider Option.none "flagd" = "flagd" := by
  refine ⟨?_, ?_, by decide, by decide, by decide⟩
  · intro h
    subst h
    simp [effective_provider, hne, hnorm, ite_self]
  · intro s h
    subst h
    by_cases hs : s = ""
    · simp [effective_provider, hs, hne, hnorm, ite_self]
    · by_cases hm : pyStrip (pyLower s) ∈ knownProviders
      · simp [effective_provider, hs, hm]
      · simp [effective_provider, hs, hm]

/-- Witness for `c1_router_provider_selection` at a concrete input: the
requested provider `" FLAGSMITH "` normalizes to the known name
`"flagsmith"` and overrides the configured default `"flagd"`. -/
theorem c1_router_provider_selection_witness :
    effective_provider (Option.some " FLAGSMITH ") "flagd" = "flagsmith" := by
  have h := (c1_router_provider_selection (Option.some " FLAGSMITH ") "flagd"
    (by decide) (by decide)).2.1 " FLAGSMITH " rfl
  rw [h]
  decide

end FFPoC
